import Mathlib

/-!
Verification of the Log Analysis Engine of `scripts/log_analyzer.py`.

The Python module is a line-oriented access-log analyzer: a primary
Combined-Log-Format parser (`LogAnalyzer.log_pattern` + `_process_log_entry`),
a token-based fallback parser (`_parse_fallback`), a streaming aggregator
(the `stats` dictionary of counters), and a security scanner
(`_check_security_issues`).  This file gives a shallow embedding of those
functions and proves/refutes the specification claims about them.

Modelling conventions:
* Python `Counter` objects are embedded as association lists
  `List (String × Nat)` that preserve first-insertion key order, exactly as
  `collections.Counter` (a dict) does.
* Strings are ASCII in all inputs of interest; Python's Unicode-aware
  `\s`, `\w`, `\d`, `str.lower`, `str.strip`, `str.split` are embedded with
  their ASCII behaviour.
* Every regular expression in the source has the shape
  "maximal run of a character class followed by a literal whose first
  character is outside that class"; for such patterns Python's backtracking
  semantics coincide with deterministic maximal-munch, which is what the
  embedding implements (shortening a class run would place a class character
  where the literal's first character is required, which always fails).
-/

/-- ASCII model of Python's `\s` / `str.strip` whitespace set. -/
def isPySpace (c : Char) : Bool :=
  c == ' ' || c == '\t' || c == '\n' || c == '\r' || c == '\x0b' || c == '\x0c'

/-- ASCII model of Python's regex `\w` class. -/
def isWordChar (c : Char) : Bool := c.isAlphanum || c == '_'

/-- ASCII model of Python's regex `\d` class. -/
def isDigitChar (c : Char) : Bool := c.isDigit

/-- `b` starts with `a` (character lists). -/
def startsL : List Char → List Char → Bool
  | [], _ => true
  | _ :: _, [] => false
  | a :: as, b :: bs => a == b && startsL as bs

/-- Model of Python's substring containment `needle in hay`. -/
def hasSubL (needle : List Char) : List Char → Bool
  | [] => startsL needle []
  | c :: rest => startsL needle (c :: rest) || hasSubL needle rest

/-- Python's `needle in hay` on strings. -/
def pyIn (needle hay : String) : Bool := hasSubL needle.toList hay.toList

/-- ASCII model of Python's `str.lower`. -/
def lowerStr (s : String) : String := String.mk (s.toList.map Char.toLower)

/-- ASCII model of Python's `str.strip()` (no arguments). -/
def pyStrip (s : String) : String :=
  String.mk (((s.toList.dropWhile isPySpace).reverse.dropWhile isPySpace).reverse)

/-- Helper of `pySplit`: split a character list on whitespace runs. -/
def splitWsAux : List Char → List Char → List (List Char)
  | [], cur => if cur.isEmpty then [] else [cur.reverse]
  | c :: rest, cur =>
    if isPySpace c then
      if cur.isEmpty then splitWsAux rest [] else cur.reverse :: splitWsAux rest []
    else splitWsAux rest (c :: cur)

/-- ASCII model of Python's `str.split()` (no arguments): whitespace runs
separate tokens, leading/trailing whitespace yields no empty tokens. -/
def pySplit (s : String) : List String := (splitWsAux s.toList []).map String.mk

/-- Consume a literal from the front of the input (`None` on mismatch);
kernel of every literal piece of the source's regexes. -/
def dropLit : List Char → List Char → Option (List Char)
  | [], cs => some cs
  | _ :: _, [] => none
  | l :: ls, c :: cs => if c == l then dropLit ls cs else none

/-- Maximal run of characters satisfying `p`, with the remainder. -/
def takeCls (p : Char → Bool) (cs : List Char) : List Char × List Char :=
  (cs.takeWhile p, cs.dropWhile p)

/-- A `+`-quantified class piece: the run must be non-empty. -/
def need1 (p : Char → Bool) (cs : List Char) : Option (List Char × List Char) :=
  let r := takeCls p cs
  if r.1.isEmpty then none else some r

/-- The structured entry produced by a primary-grammar match
(the named groups of `LogAnalyzer.log_pattern`). -/
structure LogEntry where
  ip : String
  timestamp : String
  method : String
  url : String
  protocol : String
  status : String
  size : String
  referrer : String
  user_agent : String
  deriving Repr, DecidableEq

/-- Embedding of `re.match` with `LogAnalyzer.log_pattern`:
`(?P<ip>\S+) - - \[(?P<timestamp>[^\]]+)\] "(?P<method>\w+) (?P<url>\S+)
(?P<protocol>[\w/\.]+)" (?P<status>\d+) (?P<size>\d+) "(?P<referrer>[^"]*)"
"(?P<user_agent>[^"]*)"` — anchored at the start of the line, trailing
characters permitted.  Each class run is followed by a literal whose first
character the class excludes, so maximal munch is exact (see file header). -/
def logPatternMatch (line : String) : Option LogEntry :=
  match need1 (fun c => !isPySpace c) line.toList with
  | none => none
  | some (ip, r) =>
  match dropLit " - - [".toList r with
  | none => none
  | some r =>
  match need1 (fun c => !(c == ']')) r with
  | none => none
  | some (ts, r) =>
  match dropLit "] \"".toList r with
  | none => none
  | some r =>
  match need1 isWordChar r with
  | none => none
  | some (mth, r) =>
  match dropLit " ".toList r with
  | none => none
  | some r =>
  match need1 (fun c => !isPySpace c) r with
  | none => none
  | some (url, r) =>
  match dropLit " ".toList r with
  | none => none
  | some r =>
  match need1 (fun c => isWordChar c || c == '/' || c == '.') r with
  | none => none
  | some (proto, r) =>
  match dropLit "\" ".toList r with
  | none => none
  | some r =>
  match need1 isDigitChar r with
  | none => none
  | some (st, r) =>
  match dropLit " ".toList r with
  | none => none
  | some r =>
  match need1 isDigitChar r with
  | none => none
  | some (sz, r) =>
  match dropLit " \"".toList r with
  | none => none
  | some r =>
  match takeCls (fun c => !(c == '"')) r with
  | (ref, r) =>
  match dropLit "\" \"".toList r with
  | none => none
  | some r =>
  match takeCls (fun c => !(c == '"')) r with
  | (ua, r2) =>
  match dropLit "\"".toList r2 with
  | none => none
  | some _ =>
  some { ip := String.mk ip, timestamp := String.mk ts, method := String.mk mth,
         url := String.mk url, protocol := String.mk proto, status := String.mk st,
         size := String.mk sz, referrer := String.mk ref, user_agent := String.mk ua }

/-- A Python `collections.Counter` over string keys: an association list in
first-insertion order (Python dicts preserve insertion order). -/
abbrev Counter : Type := List (String × Nat)

/-- `counter[k] += 1`: bump the first occurrence of `k`, or append `(k, 1)`. -/
def incr (c : Counter) (k : String) : Counter :=
  match c with
  | [] => [(k, 1)]
  | (k', n) :: rest => if k' = k then (k', n + 1) :: rest else (k', n) :: incr rest k

/-- `counter[k]` (0 when absent), reading the first occurrence. -/
def getCount (c : Counter) (k : String) : Nat :=
  match c with
  | [] => 0
  | (k', n) :: rest => if k' = k then n else getCount rest k

/-- `sum(counter.values())`. -/
def sumCounter (c : Counter) : Nat := (List.map Prod.snd c).sum

/-- The keys of a counter, in first-insertion order. -/
def counterKeys (c : Counter) : List String := List.map Prod.fst c

/-- The `self.stats` dictionary of `LogAnalyzer.__init__`. -/
structure Stats where
  total_requests : Nat
  status_codes : Counter
  top_pages : Counter
  top_ips : Counter
  hourly_activity : Counter
  user_agents : Counter
  referrers : Counter

/-- The freshly initialised `self.stats`. -/
def initStats : Stats :=
  { total_requests := 0, status_codes := [], top_pages := [], top_ips := [],
    hourly_activity := [], user_agents := [], referrers := [] }

/-- The twelve English month abbreviations recognised by `%b`, lowercased
(`strptime` matches them case-insensitively). -/
def monthAbbrevs : List String :=
  ["jan", "feb", "mar", "apr", "may", "jun", "jul", "aug", "sep", "oct", "nov", "dec"]

/-- Index (1-based month number) of a lowercased 3-letter abbreviation. -/
def monthIdx : List String → Nat → String → Option Nat
  | [], _, _ => none
  | m :: ms, i, s => if s = m then some i else monthIdx ms (i + 1) s

/-- Gregorian leap year, as `calendar.isleap` / `datetime` use it. -/
def isLeap (y : Nat) : Bool := y % 4 == 0 && (y % 100 != 0 || y % 400 == 0)

/-- Length of month `m` in year `y` (as validated by `datetime.__new__`). -/
def daysInMonth (y m : Nat) : Nat :=
  if m = 2 then (if isLeap y then 29 else 28)
  else if m = 4 || m = 6 || m = 9 || m = 11 then 30
  else 31

/-- Numeric value of a digit run. -/
def natOfDigits (ds : List Char) : Nat :=
  ds.foldl (fun acc c => acc * 10 + (c.toNat - 48)) 0

/-- Embedding of `datetime.strptime(tok, '%d/%b/%Y:%H:%M:%S')`, returning
`(day, month, year, hour, minute, second)`.  CPython's `_strptime` compiles
the directives to `%d ↦ (3[01]|[12]\d|0[1-9]|[1-9])`, `%b ↦` the
case-insensitive month-abbreviation alternation, `%Y ↦ \d\d\d\d`,
`%H ↦ (2[0-3]|[0-1]\d|\d)`, `%M ↦ ([0-5]\d|\d)`, `%S ↦ (6[0-1]|[0-5]\d|\d)`,
requires the whole string to be consumed, and the `datetime` constructor then
rejects year 0, days beyond the month length and seconds above 59.  Each
numeric alternation is decided here by the length and value of the maximal
digit run (a longer run always fails: the character after the consumed digits
would be a digit where a literal `/` or `:` or the end is required). -/
def strptimeDMYHMS (tok : String) : Option (Nat × Nat × Nat × Nat × Nat × Nat) :=
  match takeCls isDigitChar tok.toList with
  | (dds, r) =>
  let day := natOfDigits dds
  if ¬((dds.length = 1 ∧ 1 ≤ day) ∨ (dds.length = 2 ∧ 1 ≤ day ∧ day ≤ 31)) then none else
  match dropLit "/".toList r with
  | none => none
  | some r =>
  match monthIdx monthAbbrevs 1 (String.mk ((r.take 3).map Char.toLower)) with
  | none => none
  | some month =>
  match dropLit "/".toList (r.drop 3) with
  | none => none
  | some r =>
  match takeCls isDigitChar r with
  | (yds, r) =>
  let year := natOfDigits yds
  if ¬(yds.length = 4) then none else
  match dropLit ":".toList r with
  | none => none
  | some r =>
  match takeCls isDigitChar r with
  | (hds, r) =>
  let hour := natOfDigits hds
  if ¬(hds.length = 1 ∨ (hds.length = 2 ∧ hour ≤ 23)) then none else
  match dropLit ":".toList r with
  | none => none
  | some r =>
  match takeCls isDigitChar r with
  | (mds, r) =>
  let minute := natOfDigits mds
  if ¬(mds.length = 1 ∨ (mds.length = 2 ∧ minute ≤ 59)) then none else
  match dropLit ":".toList r with
  | none => none
  | some r =>
  match takeCls isDigitChar r with
  | (sds, r) =>
  let second := natOfDigits sds
  if ¬(sds.length = 1 ∨ (sds.length = 2 ∧ second ≤ 61)) then none else
  if ¬(r.isEmpty = true) then none else
  if 1 ≤ year ∧ day ≤ daysInMonth year month ∧ second ≤ 59 then
    some (day, month, year, hour, minute, second)
  else none

/-- Zero-padded two-digit rendering, as `strftime('%H')` produces. -/
def pad2 (n : Nat) : String := if n < 10 then "0" ++ toString n else toString n

/-- The hourly-bucket derivation of `_process_log_entry` lines 88-94:
`entry['timestamp'].split()[0]` (IndexError on an all-whitespace field is
swallowed by the bare `except`), `strptime` with `'%d/%b/%Y:%H:%M:%S'`
(failure likewise swallowed), then `dt.strftime('%H:00')`. -/
def parseHour (timestampField : String) : Option String :=
  match pySplit timestampField with
  | [] => none
  | tok :: _ =>
    match strptimeDMYHMS tok with
    | none => none
    | some (_, _, _, h, _, _) => some (pad2 h ++ ":00")

/-- The browser bucket of `_process_log_entry` lines 99-111, with the
source's test order: chrome, firefox, safari-without-chrome, edge,
bot/crawler, otherwise "Other". -/
def classifyBrowser (userAgent : String) : String :=
  let ua := lowerStr userAgent
  if pyIn "chrome" ua then "Chrome"
  else if pyIn "firefox" ua then "Firefox"
  else if pyIn "safari" ua && !pyIn "chrome" ua then "Safari"
  else if pyIn "edge" ua then "Edge"
  else if pyIn "bot" ua || pyIn "crawler" ua then "Bot/Crawler"
  else "Other"

/-- `LogAnalyzer._process_log_entry`: one primary-grammar entry updates the
stats counters.  The source performs the updates sequentially on distinct
fields; they are written here as one simultaneous record update.  The
`user_agents` and `referrers` guards model Python truthiness
(`entry[...] and entry[...] != '-'`). -/
def processLogEntry (stats : Stats) (e : LogEntry) : Stats :=
  { total_requests := stats.total_requests + 1,
    status_codes := incr stats.status_codes e.status,
    top_pages := incr stats.top_pages e.url,
    top_ips := incr stats.top_ips e.ip,
    hourly_activity :=
      match parseHour e.timestamp with
      | some h => incr stats.hourly_activity h
      | none => stats.hourly_activity,
    user_agents :=
      if e.user_agent ≠ "" ∧ e.user_agent ≠ "-" then
        incr stats.user_agents (classifyBrowser e.user_agent)
      else stats.user_agents,
    referrers :=
      if e.referrer ≠ "" ∧ e.referrer ≠ "-" then
        incr stats.referrers e.referrer
      else stats.referrers }

/-- `re.match(r'\d+\.\d+\.\d+\.\d+', part)` of `_parse_fallback`: a prefix
of the token shaped digits-dot-digits-dot-digits-dot-digits. -/
def digitsDot (cs : List Char) : Option (List Char) :=
  match need1 isDigitChar cs with
  | none => none
  | some (_, r) => dropLit ".".toList r

/-- IPv4-shaped prefix test of `_parse_fallback` line 124. -/
def ipShaped (s : String) : Bool :=
  match digitsDot s.toList with
  | none => false
  | some r =>
  match digitsDot r with
  | none => false
  | some r =>
  match digitsDot r with
  | none => false
  | some r => (need1 isDigitChar r).isSome

/-- `re.match(r'^\d{3}$', part)` of `_parse_fallback` line 130: exactly three
digits.  (Tokens come from `str.split()` and so contain no newline, making
the `$`-before-final-newline case of Python's `$` unreachable.) -/
def isThreeDigits (s : String) : Bool :=
  s.toList.length == 3 && s.toList.all isDigitChar

/-- The URL-token test of `_parse_fallback` line 136:
`'/' in part and 'HTTP' not in part` (case-sensitive). -/
def fallbackUrlToken (s : String) : Bool := pyIn "/" s && !pyIn "HTTP" s

/-- `LogAnalyzer._parse_fallback`: on a line of at least 7 whitespace tokens,
credit the first IPv4-shaped token, the first exactly-three-digit token and
the first slash-containing non-`HTTP` token (each `for`/`break` loop is a
`find?`), then increment `total_requests`; shorter lines change nothing. -/
def parseFallback (stats : Stats) (line : String) : Stats :=
  let parts := pySplit line
  if parts.length ≥ 7 then
    { stats with
      top_ips :=
        match parts.find? ipShaped with
        | some p => incr stats.top_ips p
        | none => stats.top_ips,
      status_codes :=
        match parts.find? isThreeDigits with
        | some p => incr stats.status_codes p
        | none => stats.status_codes,
      top_pages :=
        match parts.find? fallbackUrlToken with
        | some p => incr stats.top_pages p
        | none => stats.top_pages,
      total_requests := stats.total_requests + 1 }
  else stats

/-- One iteration of the reading loop of `parse_log_file` lines 53-63:
strip the line, skip it when empty, otherwise primary parse with fallback. -/
def processLine (stats : Stats) (rawLine : String) : Stats :=
  let line := pyStrip rawLine
  if line = "" then stats
  else
    match logPatternMatch line with
    | some e => processLogEntry stats e
    | none => parseFallback stats line

/-- The whole ingestion pass of `parse_log_file` over the lines of an
(openable) file, starting from the fresh `self.stats`. -/
def parseLines (lines : List String) : Stats :=
  lines.foldl processLine initStats

/-- `LogAnalyzer.parse_log_file`, with the file system abstracted: `none`
models a missing/unopenable file (the `os.path.exists` guard and the
`except` around `open`, both returning `False`); `some lines` models an
openable file with those lines, for which the per-line processing above is
total and the method returns `True`. -/
def parse_log_file (contents : Option (List String)) : Bool × Stats :=
  match contents with
  | none => (false, initStats)
  | some lines => (true, parseLines lines)

/-- A security finding printed by `_check_security_issues`: its category
label and the offending key. -/
structure SecurityFinding where
  category : String
  evidenceKey : String
  deriving Repr, DecidableEq

/-- The `suspicious_agents` list of `_check_security_issues` line 214. -/
def suspiciousAgents : List String := ["sqlmap", "nikto", "metasploit", "nmap", "havij"]

/-- The `attack_patterns` table of `_check_security_issues` lines 221-226. -/
def attackPatterns : List (String × List String) :=
  [("SQL Injection", ["union select", "or 1=1", "drop table", "insert into"]),
   ("XSS", ["<script>", "javascript:", "onload=", "onerror="]),
   ("Path Traversal", ["../", "..\\", "/etc/passwd"]),
   ("Command Injection", [";ls", "|cat", "`id`", "$(whoami)"])]

/-- `LogAnalyzer._check_security_issues`, as the list of findings it prints
in print order.  The agent loop iterates the keys of `stats['user_agents']`
(which `_process_log_entry` fills with classified browser buckets) and emits
one line per `(agent, key)` substring hit; the attack loop iterates the
table, then the keys of `stats['top_pages']`, then the category's patterns,
and emits one line per `(category, key, pattern)` hit — there is no `break`,
so a key matching several patterns of one category is reported repeatedly. -/
def checkSecurityIssues (stats : Stats) : List SecurityFinding :=
  let agentFindings :=
    suspiciousAgents.flatMap (fun agent =>
      ((counterKeys stats.user_agents).filter (fun ua => pyIn agent (lowerStr ua))).map
        (fun ua => { category := "Suspicious user agent", evidenceKey := ua }))
  let patternFindings :=
    attackPatterns.flatMap (fun cat =>
      (counterKeys stats.top_pages).flatMap (fun url =>
        ((cat.2.filter (fun pat => pyIn pat (lowerStr url))).map
          (fun _ => { category := cat.1, evidenceKey := url }))))
  agentFindings ++ patternFindings

/-- The data side of `generate_report`'s status-code section: the guard at
line 144 returns early (printing "No valid log entries found!") when
`total_requests` is zero, so the percentage division at line 159 is reached
only with a non-zero denominator.  `none` models the early return. -/
def generate_report_statusPercentages (stats : Stats) : Option (List (String × ℚ)) :=
  if stats.total_requests = 0 then none
  else some (stats.status_codes.map
    (fun kv => (kv.1, (kv.2 : ℚ) / (stats.total_requests : ℚ) * 100)))

/-- The 12-line sample produced by `create_sample_log`. -/
def sampleLog : List String :=
  ["192.168.1.100 - - [25/Dec/2023:10:15:32 +0000] \"GET /index.html HTTP/1.1\" 200 1524 \"https://example.com\" \"Mozilla/5.0 (Windows NT 10.0; Win64; x64) AppleWebKit/537.36\"",
   "192.168.1.101 - - [25/Dec/2023:10:15:33 +0000] \"GET /about.html HTTP/1.1\" 200 2341 \"https://example.com\" \"Mozilla/5.0 (Macintosh; Intel Mac OS X 10_15_7) AppleWebKit/537.36\"",
   "192.168.1.102 - - [25/Dec/2023:10:15:34 +0000] \"GET /contact.php HTTP/1.1\" 200 1876 \"-\" \"Mozilla/5.0 (X11; Linux x86_64) AppleWebKit/537.36\"",
   "192.168.1.103 - - [25/Dec/2023:10:15:35 +0000] \"GET /old-page.html HTTP/1.1\" 404 342 \"-\" \"Mozilla/5.0 (Windows NT 10.0; Win64; x64) Chrome/91.0.4472.124\"",
   "192.168.1.104 - - [25/Dec/2023:10:15:36 +0000] \"GET /admin/login HTTP/1.1\" 403 512 \"-\" \"Mozilla/5.0 (Windows NT 10.0; Win64; x64) Firefox/89.0\"",
   "192.168.1.105 - - [25/Dec/2023:10:15:37 +0000] \"GET /api/users HTTP/1.1\" 200 876 \"https://app.example.com\" \"Mozilla/5.0 (Macintosh; Intel Mac OS X 10_15_7) Safari/537.36\"",
   "192.168.1.100 - - [25/Dec/2023:10:15:38 +0000] \"GET /products/item123 HTTP/1.1\" 200 1543 \"https://example.com\" \"Mozilla/5.0 (Windows NT 10.0; Win64; x64) Edge/91.0.864.59\"",
   "192.168.1.106 - - [25/Dec/2023:10:15:39 +0000] \"GET /wp-admin HTTP/1.1\" 404 321 \"-\" \"sqlmap/1.4.2\"",
   "192.168.1.107 - - [25/Dec/2023:10:15:40 +0000] \"GET /search?q=<script>alert('xss')</script> HTTP/1.1\" 200 765 \"-\" \"Mozilla/5.0 (Windows NT 10.0; Win64; x64)\"",
   "192.168.1.108 - - [25/Dec/2023:10:15:41 +0000] \"GET /../../../etc/passwd HTTP/1.1\" 403 498 \"-\" \"Mozilla/5.0 (X11; Linux x86_64)\"",
   "192.168.1.109 - - [25/Dec/2023:10:15:42 +0000] \"POST /login HTTP/1.1\" 200 432 \"https://example.com\" \"Mozilla/5.0 (Windows NT 10.0; Win64; x64) Chrome/91.0.4472.124\"",
   "192.168.1.110 - - [25/Dec/2023:10:15:43 +0000] \"GET /images/logo.png HTTP/1.1\" 200 2345 \"https://example.com\" \"Mozilla/5.0 (Macintosh; Intel Mac OS X 10_15_7) AppleWebKit/537.36\""]

/-! ### Counter lemmas -/

theorem getCount_incr_self (c : Counter) (k : String) :
    getCount (incr c k) k = getCount c k + 1 := by
  induction c with
  | nil => simp [incr, getCount]
  | cons kv rest ih =>
    obtain ⟨k', n⟩ := kv
    by_cases h : k' = k
    · subst h; simp [incr, getCount]
    · simp [incr, getCount, h, ih]

theorem sumCounter_incr (c : Counter) (k : String) :
    sumCounter (incr c k) = sumCounter c + 1 := by
  induction c with
  | nil => simp [incr, sumCounter]
  | cons kv rest ih =>
    obtain ⟨k', n⟩ := kv
    by_cases h : k' = k
    · subst h; simp [incr, sumCounter]; omega
    · simp [incr, sumCounter, h] at ih ⊢; omega

theorem counterKeys_cons (a : String) (b : Nat) (l : Counter) :
    counterKeys ((a, b) :: l) = a :: counterKeys l := rfl

theorem mem_counterKeys_incr {c : Counter} {k k' : String}
    (h : k' ∈ counterKeys (incr c k)) : k' = k ∨ k' ∈ counterKeys c := by
  induction c with
  | nil =>
    rw [show incr [] k = [(k, 1)] from rfl, counterKeys_cons] at h
    rcases List.mem_cons.mp h with h | h
    · exact Or.inl h
    · simp [counterKeys] at h
  | cons kv rest ih =>
    obtain ⟨k₀, n⟩ := kv
    by_cases hk : k₀ = k
    · rw [show incr ((k₀, n) :: rest) k = (k₀, n + 1) :: rest from by simp [incr, hk],
        counterKeys_cons] at h
      rcases List.mem_cons.mp h with h | h
      · subst hk; exact Or.inl h
      · exact Or.inr (by rw [counterKeys_cons]; exact List.mem_cons_of_mem _ h)
    · rw [show incr ((k₀, n) :: rest) k = (k₀, n) :: incr rest k from by simp [incr, hk],
        counterKeys_cons] at h
      rcases List.mem_cons.mp h with h | h
      · exact Or.inr (by rw [counterKeys_cons]; exact List.mem_cons.mpr (Or.inl h))
      · rcases ih h with h' | h'
        · exact Or.inl h'
        · exact Or.inr (by rw [counterKeys_cons]; exact List.mem_cons_of_mem _ h')

/-! ### Ingestion-step lemmas -/

theorem logPatternMatch_empty : logPatternMatch "" = none := rfl

theorem processLine_of_match {st : Stats} {l : String} {e : LogEntry}
    (h : logPatternMatch (pyStrip l) = some e) :
    processLine st l = processLogEntry st e := by
  have hne : ¬ (pyStrip l = "") := by
    intro h0
    rw [h0, logPatternMatch_empty] at h
    cases h
  unfold processLine
  simp [hne, h]

/-- Whether one raw line contributes to `total_requests`: non-blank after
stripping, and either a primary-grammar match (`_process_log_entry` always
increments) or at least 7 whitespace tokens (`_parse_fallback` increments
whenever its token-count guard passes, whether or not any field matched). -/
def countedLine (l : String) : Bool :=
  let s := pyStrip l
  if s = "" then false
  else
    match logPatternMatch s with
    | some _ => true
    | none => if (pySplit s).length ≥ 7 then true else false

theorem processLine_total (st : Stats) (l : String) :
    (processLine st l).total_requests =
      st.total_requests + (if countedLine l then 1 else 0) := by
  unfold processLine countedLine
  by_cases hs : pyStrip l = ""
  · simp [hs]
  · simp only [hs, if_false]
    cases hm : logPatternMatch (pyStrip l) with
    | some e => simp [hm, processLogEntry]
    | none =>
      simp only [hm]
      unfold parseFallback
      by_cases hlen : (pySplit (pyStrip l)).length ≥ 7
      · simp [hlen]
      · simp [hlen]

theorem foldl_processLine_total (lines : List String) :
    ∀ st : Stats, (lines.foldl processLine st).total_requests =
      st.total_requests + lines.countP countedLine := by
  induction lines with
  | nil => intro st; simp
  | cons l rest ih =>
    intro st
    simp only [List.foldl_cons, List.countP_cons, ih, processLine_total]
    by_cases h : countedLine l
    · simp only [h, if_true]; omega
    · simp [h]

/-- C3 counterexample: the 7-token line `"a b c d e f g"` matches neither the
primary grammar nor any fallback extraction rule — no IPv4-shaped token, no
three-digit token, no slash token — yet `_parse_fallback` still increments
`total_requests`, so the count exceeds the number of lines with at least one
extracted field (which is 0 here). -/
theorem C3_counterexample :
    (parseLines ["a b c d e f g"]).total_requests = 1 ∧
    (parseLines ["a b c d e f g"]).status_codes = [] ∧
    (parseLines ["a b c d e f g"]).top_pages = [] ∧
    (parseLines ["a b c d e f g"]).top_ips = [] := by
  refine ⟨rfl, rfl, rfl, rfl⟩

/-- C3 (amended): `total_requests` equals the number of non-blank lines that
either match the primary grammar or split into at least 7 whitespace tokens;
a ≥7-token line is counted even when no field is extracted from it. -/
theorem C3_total_requests_counted_lines (lines : List String) :
    (parseLines lines).total_requests = lines.countP countedLine := by
  have h := foldl_processLine_total lines initStats
  simpa [parseLines, initStats] using h

/-- The browser-precedence order asserted by the specification
(bot/crawler first, then edge, then chrome, then firefox, then safari,
otherwise "Other") — written from the claim's words, for refinement
comparison against `classifyBrowser`, which embeds the source. -/
def classifyBrowserClaimed (userAgent : String) : String :=
  let ua := lowerStr userAgent
  if pyIn "bot" ua || pyIn "crawler" ua then "Bot/Crawler"
  else if pyIn "edge" ua then "Edge"
  else if pyIn "chrome" ua then "Chrome"
  else if pyIn "firefox" ua then "Firefox"
  else if pyIn "safari" ua && !pyIn "chrome" ua then "Safari"
  else "Other"

/-- C4 counterexample: a user agent containing both "edge" and "chrome" is
classified "Chrome" by the source (its `if` chain tests `chrome` first),
while the claimed precedence (edge before chrome) would give "Edge". -/
theorem C4_counterexample :
    classifyBrowser "Edge/91.0 Chrome/91.0" = "Chrome" ∧
    classifyBrowserClaimed "Edge/91.0 Chrome/91.0" = "Edge" ∧
    classifyBrowser "Googlebot Chrome/91.0" = "Chrome" ∧
    classifyBrowserClaimed "Googlebot Chrome/91.0" = "Bot/Crawler" := by
  refine ⟨rfl, rfl, rfl, rfl⟩

/-- C4 (amended): the source's classification applies case-insensitive
substring tests in the precedence order chrome → firefox → safari (only if
chrome absent) → edge → bot/crawler → "Other", first match winning; in
particular a user agent containing both "edge" and "chrome", or both "bot"
and "chrome", classifies as "Chrome". -/
theorem C4_precedence (ua : String) :
    (pyIn "chrome" (lowerStr ua) = true → classifyBrowser ua = "Chrome") ∧
    (pyIn "chrome" (lowerStr ua) = false → pyIn "firefox" (lowerStr ua) = true →
      classifyBrowser ua = "Firefox") ∧
    (pyIn "chrome" (lowerStr ua) = false → pyIn "firefox" (lowerStr ua) = false →
      pyIn "safari" (lowerStr ua) = true → classifyBrowser ua = "Safari") ∧
    (pyIn "chrome" (lowerStr ua) = false → pyIn "firefox" (lowerStr ua) = false →
      pyIn "safari" (lowerStr ua) = false → pyIn "edge" (lowerStr ua) = true →
      classifyBrowser ua = "Edge") ∧
    (pyIn "chrome" (lowerStr ua) = false → pyIn "firefox" (lowerStr ua) = false →
      pyIn "safari" (lowerStr ua) = false → pyIn "edge" (lowerStr ua) = false →
      (pyIn "bot" (lowerStr ua) = true ∨ pyIn "crawler" (lowerStr ua) = true) →
      classifyBrowser ua = "Bot/Crawler") ∧
    (pyIn "chrome" (lowerStr ua) = false → pyIn "firefox" (lowerStr ua) = false →
      pyIn "safari" (lowerStr ua) = false → pyIn "edge" (lowerStr ua) = false →
      pyIn "bot" (lowerStr ua) = false → pyIn "crawler" (lowerStr ua) = false →
      classifyBrowser ua = "Other") := by
  refine ⟨?_, ?_, ?_, ?_, ?_, ?_⟩
  · intro h1; simp [classifyBrowser, h1]
  · intro h1 h2; simp [classifyBrowser, h1, h2]
  · intro h1 h2 h3; simp [classifyBrowser, h1, h2, h3]
  · intro h1 h2 h3 h4; simp [classifyBrowser, h1, h2, h3, h4]
  · intro h1 h2 h3 h4 h5
    rcases h5 with h5 | h5 <;> simp [classifyBrowser, h1, h2, h3, h4, h5]
  · intro h1 h2 h3 h4 h5 h6; simp [classifyBrowser, h1, h2, h3, h4, h5, h6]

/-- Witness for `C4_precedence` at a concrete user agent. -/
theorem C4_precedence_witness :
    pyIn "chrome" (lowerStr "Mozilla/5.0 Edge/91 Chrome/91") = true ∧
    classifyBrowser "Mozilla/5.0 Edge/91 Chrome/91" = "Chrome" :=
  ⟨by decide, (C4_precedence "Mozilla/5.0 Edge/91 Chrome/91").1 (by decide)⟩

/-- C6: a user agent containing both "chrome" and "safari" (case-insensitively)
classifies as "Chrome", never "Safari" — the source tests `chrome` first. -/
theorem C6_chrome_beats_safari (ua : String)
    (hc : pyIn "chrome" (lowerStr ua) = true)
    (hs : pyIn "safari" (lowerStr ua) = true) :
    classifyBrowser ua = "Chrome" ∧ classifyBrowser ua ≠ "Safari" := by
  have h : classifyBrowser ua = "Chrome" := by simp [classifyBrowser, hc]
  refine ⟨h, ?_⟩
  rw [h]
  decide

/-- Witness for `C6_chrome_beats_safari` at a real Chrome user agent. -/
theorem C6_chrome_beats_safari_witness :
    pyIn "chrome" (lowerStr "Mozilla/5.0 Chrome/91.0 Safari/537.36") = true ∧
    pyIn "safari" (lowerStr "Mozilla/5.0 Chrome/91.0 Safari/537.36") = true ∧
    classifyBrowser "Mozilla/5.0 Chrome/91.0 Safari/537.36" = "Chrome" :=
  ⟨by decide, by decide,
   (C6_chrome_beats_safari "Mozilla/5.0 Chrome/91.0 Safari/537.36"
     (by decide) (by decide)).1⟩

/-- One ingestion step preserves `sum(status_codes.values()) ≤ total_requests`:
a primary match adds 1 to both sides, a fallback line adds 1 to the total and
at most 1 to the status sum, and other lines change nothing. -/
theorem processLine_status_sum_le (st : Stats) (l : String)
    (h : sumCounter st.status_codes ≤ st.total_requests) :
    sumCounter (processLine st l).status_codes ≤ (processLine st l).total_requests := by
  unfold processLine
  by_cases hs : pyStrip l = ""
  · simpa [hs] using h
  · simp only [hs, if_false]
    cases hm : logPatternMatch (pyStrip l) with
    | some e =>
      simp only [processLogEntry, sumCounter_incr]
      omega
    | none =>
      unfold parseFallback
      by_cases hlen : (pySplit (pyStrip l)).length ≥ 7
      · simp only [hlen, if_true]
        cases hf : (pySplit (pyStrip l)).find? isThreeDigits with
        | some p => simp only [hf, sumCounter_incr]; omega
        | none => simp only [hf]; omega
      · simpa [hlen] using h

/-- C5: after any input, `sum(statusCodeCounts.values()) ≤ totalRequests`,
and the inequality is preserved by every single line-ingestion step. -/
theorem C5_status_sum_le_total :
    (∀ (st : Stats) (l : String), sumCounter st.status_codes ≤ st.total_requests →
      sumCounter (processLine st l).status_codes ≤ (processLine st l).total_requests) ∧
    (∀ lines : List String,
      sumCounter (parseLines lines).status_codes ≤ (parseLines lines).total_requests) := by
  refine ⟨processLine_status_sum_le, ?_⟩
  intro lines
  have main : ∀ (ls : List String) (st : Stats),
      sumCounter st.status_codes ≤ st.total_requests →
      sumCounter (ls.foldl processLine st).status_codes ≤
        (ls.foldl processLine st).total_requests := by
    intro ls
    induction ls with
    | nil => intro st h; simpa using h
    | cons l rest ih =>
      intro st h
      exact ih (processLine st l) (processLine_status_sum_le st l h)
  exact main lines initStats (by simp [initStats, sumCounter])

/-- Witness for `C5_status_sum_le_total` on a concrete state and input. -/
theorem C5_status_sum_le_total_witness :
    sumCounter (processLine initStats "a b c 200 d e f/g").status_codes ≤
      (processLine initStats "a b c 200 d e f/g").total_requests :=
  C5_status_sum_le_total.1 initStats "a b c 200 d e f/g"
    (by simp [initStats, sumCounter])

/-- C9: ingesting the same primary-grammar line twice adds exactly 2 to
`total_requests` and to every counter key the line touches — status code,
URL, IP, hour bucket (when the timestamp parses), browser bucket and
referrer (when present and not the `-` sentinel) — i.e. each of the two
ingestions adds exactly 1. -/
theorem C9_double_ingest (st : Stats) (l : String) (e : LogEntry)
    (h : logPatternMatch (pyStrip l) = some e) :
    (processLine (processLine st l) l).total_requests = st.total_requests + 2 ∧
    getCount (processLine (processLine st l) l).status_codes e.status
      = getCount st.status_codes e.status + 2 ∧
    getCount (processLine (processLine st l) l).top_pages e.url
      = getCount st.top_pages e.url + 2 ∧
    getCount (processLine (processLine st l) l).top_ips e.ip
      = getCount st.top_ips e.ip + 2 ∧
    (∀ hr, parseHour e.timestamp = some hr →
      getCount (processLine (processLine st l) l).hourly_activity hr
        = getCount st.hourly_activity hr + 2) ∧
    (e.user_agent ≠ "" → e.user_agent ≠ "-" →
      getCount (processLine (processLine st l) l).user_agents (classifyBrowser e.user_agent)
        = getCount st.user_agents (classifyBrowser e.user_agent) + 2) ∧
    (e.referrer ≠ "" → e.referrer ≠ "-" →
      getCount (processLine (processLine st l) l).referrers e.referrer
        = getCount st.referrers e.referrer + 2) := by
  rw [processLine_of_match h, processLine_of_match h]
  refine ⟨?_, ?_, ?_, ?_, ?_, ?_, ?_⟩
  · simp [processLogEntry]
  · simp [processLogEntry, getCount_incr_self]
  · simp [processLogEntry, getCount_incr_self]
  · simp [processLogEntry, getCount_incr_self]
  · intro hr hhr; simp [processLogEntry, hhr, getCount_incr_self]
  · intro h1 h2; simp [processLogEntry, h1, h2, getCount_incr_self]
  · intro h1 h2; simp [processLogEntry, h1, h2, getCount_incr_self]

/-- Witness for `C9_double_ingest`: the first sample line, ingested twice
into the fresh state. -/
theorem C9_double_ingest_witness :
    (processLine (processLine initStats "192.168.1.100 - - [25/Dec/2023:10:15:32 +0000] \"GET /index.html HTTP/1.1\" 200 1524 \"https://example.com\" \"Mozilla/5.0 (Windows NT 10.0; Win64; x64) AppleWebKit/537.36\"") "192.168.1.100 - - [25/Dec/2023:10:15:32 +0000] \"GET /index.html HTTP/1.1\" 200 1524 \"https://example.com\" \"Mozilla/5.0 (Windows NT 10.0; Win64; x64) AppleWebKit/537.36\"").total_requests
      = initStats.total_requests + 2 :=
  (C9_double_ingest initStats
    "192.168.1.100 - - [25/Dec/2023:10:15:32 +0000] \"GET /index.html HTTP/1.1\" 200 1524 \"https://example.com\" \"Mozilla/5.0 (Windows NT 10.0; Win64; x64) AppleWebKit/537.36\""
    { ip := "192.168.1.100", timestamp := "25/Dec/2023:10:15:32 +0000",
      method := "GET", url := "/index.html", protocol := "HTTP/1.1",
      status := "200", size := "1524", referrer := "https://example.com",
      user_agent := "Mozilla/5.0 (Windows NT 10.0; Win64; x64) AppleWebKit/537.36" }
    (by decide)).1

/-- One ingestion step only ever adds a non-empty, non-`"-"` key to the
referrer counter: `_process_log_entry` guards the increment with
`entry['referrer'] and entry['referrer'] != '-'`, and `_parse_fallback`
never touches `referrers`. -/
theorem processLine_referrer_keys {st : Stats} {l : String} {k : String}
    (h : k ∈ counterKeys (processLine st l).referrers) :
    k ∈ counterKeys st.referrers ∨ (k ≠ "" ∧ k ≠ "-") := by
  unfold processLine at h
  by_cases hs : pyStrip l = ""
  · simp only [hs, if_true, if_pos] at h
    exact Or.inl h
  · simp only [hs, if_false] at h
    cases hm : logPatternMatch (pyStrip l) with
    | some e =>
      rw [hm] at h
      simp only [processLogEntry] at h
      by_cases hcond : e.referrer ≠ "" ∧ e.referrer ≠ "-"
      · rw [if_pos hcond] at h
        rcases mem_counterKeys_incr h with h' | h'
        · subst h'; exact Or.inr hcond
        · exact Or.inl h'
      · rw [if_neg hcond] at h
        exact Or.inl h
    | none =>
      rw [hm] at h
      unfold parseFallback at h
      by_cases hlen : (pySplit (pyStrip l)).length ≥ 7
      · rw [if_pos hlen] at h
        exact Or.inl h
      · rw [if_neg hlen] at h
        exact Or.inl h

/-- C10: after any run, every key of the referrer distribution is a
non-empty string different from the `-` sentinel. -/
theorem C10_referrer_keys (lines : List String) (k : String)
    (h : k ∈ counterKeys (parseLines lines).referrers) : k ≠ "" ∧ k ≠ "-" := by
  have main : ∀ (ls : List String) (st : Stats),
      (∀ k', k' ∈ counterKeys st.referrers → k' ≠ "" ∧ k' ≠ "-") →
      ∀ k', k' ∈ counterKeys (ls.foldl processLine st).referrers → k' ≠ "" ∧ k' ≠ "-" := by
    intro ls
    induction ls with
    | nil => intro st hst k' hk; exact hst k' hk
    | cons l rest ih =>
      intro st hst k' hk
      refine ih (processLine st l) ?_ k' hk
      intro k'' hk''
      rcases processLine_referrer_keys hk'' with h' | h'
      · exact hst k'' h'
      · exact h'
  exact main lines initStats
    (by intro k' hk'; simp [initStats, counterKeys] at hk') k h

/-- Witness for `C10_referrer_keys` on a one-line input. -/
theorem C10_referrer_keys_witness :
    ("http://r.example" : String) ≠ "" ∧ ("http://r.example" : String) ≠ "-" :=
  C10_referrer_keys
    ["1.2.3.4 - - [x] \"GET /a HTTP/1.1\" 200 5 \"http://r.example\" \"-\""]
    "http://r.example" (by decide)

/-- C8: the run fails exactly when the source cannot be opened; any openable
input — the empty file included — processes to completion, the empty file
yields the all-zero statistics, and the report's percentage computation is
guarded by an explicit zero-request check instead of dividing by zero. -/
theorem C8_error_handling :
    (∀ input : Option (List String), (parse_log_file input).1 = false ↔ input = none) ∧
    (parse_log_file (some []) = (true, initStats) ∧
      initStats.total_requests = 0 ∧ initStats.status_codes = [] ∧
      initStats.top_pages = [] ∧ initStats.top_ips = [] ∧
      initStats.hourly_activity = [] ∧ initStats.user_agents = [] ∧
      initStats.referrers = []) ∧
    (∀ st : Stats, generate_report_statusPercentages st = none ↔ st.total_requests = 0) := by
  refine ⟨?_, ⟨rfl, rfl, rfl, rfl, rfl, rfl, rfl, rfl⟩, ?_⟩
  · intro input
    cases input <;> simp [parse_log_file]
  · intro st
    by_cases h : st.total_requests = 0 <;> simp [generate_report_statusPercentages, h]

/-- Witness for `C8_error_handling` at concrete inputs. -/
theorem C8_error_handling_witness :
    (parse_log_file none).1 = false ∧
    generate_report_statusPercentages initStats = none :=
  ⟨(C8_error_handling.1 none).mpr rfl,
   (C8_error_handling.2.2 initStats).mpr rfl⟩

/-! ### Security-scanner lemmas -/

theorem agent_findings_category (uaKeys : List String) (f : SecurityFinding)
    (hf : f ∈ suspiciousAgents.flatMap (fun agent =>
      (uaKeys.filter (fun ua => pyIn agent (lowerStr ua))).map
        (fun ua => ({category := "Suspicious user agent", evidenceKey := ua} : SecurityFinding)))) :
    f.category = "Suspicious user agent" := by
  rcases List.mem_flatMap.mp hf with ⟨agent, _, hmem⟩
  rcases List.mem_map.mp hmem with ⟨ua, _, rfl⟩
  rfl

theorem filter_agentPart_eq_nil (uaKeys : List String) (cat url : String)
    (hcat : cat ≠ "Suspicious user agent") :
    (suspiciousAgents.flatMap (fun agent =>
      (uaKeys.filter (fun ua => pyIn agent (lowerStr ua))).map
        (fun ua => ({category := "Suspicious user agent", evidenceKey := ua} : SecurityFinding)))).filter
      (fun f => f.category == cat && f.evidenceKey == url) = [] := by
  apply List.filter_eq_nil_iff.mpr
  intro f hf
  have hcatf := agent_findings_category uaKeys f hf
  simp only [Bool.and_eq_true, beq_iff_eq, not_and]
  intro h1
  exact absurd (h1.symm.trans hcatf) hcat

theorem filter_block_aux (c : String) (pats : List String) (cat url : String)
    (keys : List String) (hcond : c ≠ cat ∨ url ∉ keys) :
    (keys.flatMap (fun u => (pats.filter (fun p => pyIn p (lowerStr u))).map
      (fun _ => ({category := c, evidenceKey := u} : SecurityFinding)))).filter
      (fun f => f.category == cat && f.evidenceKey == url) = [] := by
  apply List.filter_eq_nil_iff.mpr
  intro f hf
  rcases List.mem_flatMap.mp hf with ⟨u, hu, hmem⟩
  rcases List.mem_map.mp hmem with ⟨p, _, rfl⟩
  simp only [Bool.and_eq_true, beq_iff_eq, not_and]
  intro h1 h2
  rcases hcond with hc | hc
  · exact hc h1
  · exact hc (h2 ▸ hu)

theorem filter_block_count (c : String) (pats : List String) (url : String) :
    ∀ keys : List String, keys.Nodup → url ∈ keys →
    ((keys.flatMap (fun u => (pats.filter (fun p => pyIn p (lowerStr u))).map
      (fun _ => ({category := c, evidenceKey := u} : SecurityFinding)))).filter
      (fun f => f.category == c && f.evidenceKey == url)).length
      = (pats.filter (fun p => pyIn p (lowerStr url))).length := by
  intro keys
  induction keys with
  | nil => intro _ hmem; cases hmem
  | cons kk ks ih =>
    intro hnd hmem
    rw [List.flatMap_cons, List.filter_append, List.length_append]
    by_cases hk : kk = url
    · subst hk
      have hrest : kk ∉ ks := (List.nodup_cons.mp hnd).1
      rw [filter_block_aux c pats c kk ks (Or.inr hrest)]
      have hkeep : ((pats.filter (fun p => pyIn p (lowerStr kk))).map
          (fun _ => ({category := c, evidenceKey := kk} : SecurityFinding))).filter
            (fun f => f.category == c && f.evidenceKey == kk)
          = (pats.filter (fun p => pyIn p (lowerStr kk))).map
              (fun _ => ({category := c, evidenceKey := kk} : SecurityFinding)) := by
        apply List.filter_eq_self.mpr
        intro f hf
        rcases List.mem_map.mp hf with ⟨p, _, rfl⟩
        simp
      rw [hkeep, List.length_map]
      simp
    · have hmem' : url ∈ ks := by
        rcases List.mem_cons.mp hmem with h | h
        · exact absurd h.symm hk
        · exact h
      have hnil : ((pats.filter (fun p => pyIn p (lowerStr kk))).map
          (fun _ => ({category := c, evidenceKey := kk} : SecurityFinding))).filter
            (fun f => f.category == c && f.evidenceKey == url) = [] := by
        apply List.filter_eq_nil_iff.mpr
        intro f hf
        rcases List.mem_map.mp hf with ⟨p, _, rfl⟩
        simp [hk]
      rw [hnil]
      simp only [List.length_nil, Nat.zero_add]
      exact ih (List.nodup_cons.mp hnd).2 hmem'

theorem mem_patternPart_category {keys : List String} {table : List (String × List String)}
    {f : SecurityFinding}
    (hf : f ∈ table.flatMap (fun cat =>
      keys.flatMap (fun url =>
        (cat.2.filter (fun pat => pyIn pat (lowerStr url))).map
          (fun _ => ({category := cat.1, evidenceKey := url} : SecurityFinding))))) :
    ∃ p ∈ table, f.category = p.1 := by
  rcases List.mem_flatMap.mp hf with ⟨p, hp, hf2⟩
  rcases List.mem_flatMap.mp hf2 with ⟨u, _, hf3⟩
  rcases List.mem_map.mp hf3 with ⟨q, _, rfl⟩
  exact ⟨p, hp, rfl⟩

theorem filter_patternPart_eq_nil {keys : List String} {cat url : String}
    {table : List (String × List String)}
    (hno : ∀ p ∈ table, p.1 ≠ cat) :
    (table.flatMap (fun c =>
      keys.flatMap (fun u =>
        (c.2.filter (fun pat => pyIn pat (lowerStr u))).map
          (fun _ => ({category := c.1, evidenceKey := u} : SecurityFinding))))).filter
      (fun f => f.category == cat && f.evidenceKey == url) = [] := by
  apply List.filter_eq_nil_iff.mpr
  intro f hf
  rcases mem_patternPart_category hf with ⟨p, hp, hcatf⟩
  simp only [Bool.and_eq_true, beq_iff_eq, not_and]
  intro h1
  exact absurd (h1.symm.trans hcatf).symm (hno p hp)

theorem filter_patternPart_count {keys : List String} {cat : String} {pats : List String}
    {url : String} (hnd : keys.Nodup) (hurl : url ∈ keys) :
    ∀ table : List (String × List String), (cat, pats) ∈ table →
    (table.map Prod.fst).count cat = 1 →
    ((table.flatMap (fun c =>
      keys.flatMap (fun u =>
        (c.2.filter (fun pat => pyIn pat (lowerStr u))).map
          (fun _ => ({category := c.1, evidenceKey := u} : SecurityFinding))))).filter
      (fun f => f.category == cat && f.evidenceKey == url)).length
      = (pats.filter (fun pat => pyIn pat (lowerStr url))).length := by
  intro table
  induction table with
  | nil => intro h _; cases h
  | cons e es ih =>
    intro hmem hcount
    obtain ⟨c', ps'⟩ := e
    rw [List.flatMap_cons, List.filter_append, List.length_append]
    by_cases hc : c' = cat
    · subst hc
      have hes : ∀ p ∈ es, p.1 ≠ c' := by
        intro p hp
        intro hpc
        have h2 : (es.map Prod.fst).count c' ≥ 1 :=
          List.one_le_count_iff.mpr (hpc ▸ List.mem_map_of_mem Prod.fst hp)
        simp only [List.map_cons, List.count_cons_self] at hcount
        omega
      have hee : ps' = pats := by
        rcases List.mem_cons.mp hmem with h | h
        · exact ((Prod.mk.injEq _ _ _ _).mp h.symm).2
        · exact absurd rfl (hes (c', pats) h)
      subst hee
      rw [filter_patternPart_eq_nil hes]
      simp only [List.length_nil, Nat.add_zero]
      exact filter_block_count c' ps' url keys hnd hurl
    · have hmem' : (cat, pats) ∈ es := by
        rcases List.mem_cons.mp hmem with h | h
        · exact absurd ((Prod.mk.injEq _ _ _ _).mp h).1.symm hc
        · exact h
      have hcount' : (es.map Prod.fst).count cat = 1 := by
        simp only [List.map_cons] at hcount
        rwa [List.count_cons_of_ne (fun h => hc h.symm)] at hcount
      have hhead : ((keys.flatMap (fun u =>
          (ps'.filter (fun pat => pyIn pat (lowerStr u))).map
            (fun _ => ({category := c', evidenceKey := u} : SecurityFinding)))).filter
          (fun f => f.category == cat && f.evidenceKey == url)) = [] :=
        filter_block_aux c' ps' cat url keys (Or.inl hc)
      rw [hhead]
      simp only [List.length_nil, Nat.zero_add]
      exact ih hmem' hcount'

/-- C7 counterexample: the sample's traversal line has a URL containing both
`../` and `/etc/passwd`, and the scanner — which has no `break` over a
category's pattern list — emits two Path Traversal findings for that single
(category, key) pair, not at most one. -/
theorem C7_counterexample :
    ((checkSecurityIssues (parseLines
        ["192.168.1.108 - - [25/Dec/2023:10:15:41 +0000] \"GET /../../../etc/passwd HTTP/1.1\" 403 498 \"-\" \"Mozilla/5.0 (X11; Linux x86_64)\""])).filter
      (fun f => f.category == "Path Traversal" && f.evidenceKey == "/../../../etc/passwd")).length = 2 := by
  rfl

/-- C7 (amended): for every distinct URL key and attack category, the scanner
emits exactly one finding per (category, key, matching pattern) triple — so a
key matching `n` of a category's patterns yields `n` findings for that
(category, key) pair, not at most one. -/
theorem C7_per_pattern_findings (stats : Stats) (cat : String) (pats : List String)
    (url : String)
    (hcat : (cat, pats) ∈ attackPatterns)
    (hnd : (counterKeys stats.top_pages).Nodup)
    (hurl : url ∈ counterKeys stats.top_pages) :
    ((checkSecurityIssues stats).filter
        (fun f => f.category == cat && f.evidenceKey == url)).length
      = (pats.filter (fun pat => pyIn pat (lowerStr url))).length := by
  have hfacts : cat ≠ "Suspicious user agent" ∧ (attackPatterns.map Prod.fst).count cat = 1 := by
    have hcopy := hcat
    simp only [attackPatterns, List.mem_cons, List.not_mem_nil, or_false,
      Prod.mk.injEq] at hcopy
    rcases hcopy with ⟨rfl, rfl⟩ | ⟨rfl, rfl⟩ | ⟨rfl, rfl⟩ | ⟨rfl, rfl⟩ <;>
      exact ⟨by decide, by decide⟩
  simp only [checkSecurityIssues]
  rw [List.filter_append, List.length_append,
    filter_agentPart_eq_nil (counterKeys stats.user_agents) cat url hfacts.1]
  simp only [List.length_nil, Nat.zero_add]
  exact filter_patternPart_count hnd hurl attackPatterns hcat hfacts.2

/-- Witness for `C7_per_pattern_findings`: on the single traversal line, the
Path Traversal category has exactly two matching patterns and the scanner
emits exactly two findings. -/
theorem C7_per_pattern_findings_witness :
    ((checkSecurityIssues (parseLines
        ["192.168.1.200 - - [25/Dec/2023:11:00:00 +0000] \"GET /a/../b/../../etc/passwd HTTP/1.1\" 200 10 \"-\" \"curl/7.0\""])).filter
      (fun f => f.category == "Path Traversal" && f.evidenceKey == "/a/../b/../../etc/passwd")).length
      = ((["../", "..\\", "/etc/passwd"] : List String).filter
          (fun pat => pyIn pat (lowerStr "/a/../b/../../etc/passwd"))).length :=
  C7_per_pattern_findings
    (parseLines
      ["192.168.1.200 - - [25/Dec/2023:11:00:00 +0000] \"GET /a/../b/../../etc/passwd HTTP/1.1\" 200 10 \"-\" \"curl/7.0\""])
    "Path Traversal" ["../", "..\\", "/etc/passwd"] "/a/../b/../../etc/passwd"
    (by decide) (by decide) (by decide)

/-- C1: running the engine over the canonical 12-line sample.  The traffic
side of the claim holds (`totalRequests = 12`, statuses `200:8, 404:2,
403:2`) and the attack scan emits exactly three findings (one XSS, two Path
Traversal), but the code emits NO suspicious-user-agent finding for
`sqlmap/1.4.2` — `_check_security_issues` scans the keys of
`stats['user_agents']`, which hold only classified browser buckets
("Other", "Chrome", ...), not raw user agents, so the sqlmap entry
(classified "Other") is invisible to it even though the raw string contains
the `sqlmap` substring. -/
theorem C1_sample_run :
    (parseLines sampleLog).total_requests = 12 ∧
    (parseLines sampleLog).status_codes = [("200", 8), ("404", 2), ("403", 2)] ∧
    ((checkSecurityIssues (parseLines sampleLog)).filter
      (fun f => f.category == "Suspicious user agent")) = [] ∧
    checkSecurityIssues (parseLines sampleLog) =
      [{ category := "XSS", evidenceKey := "/search?q=<script>alert('xss')</script>" },
       { category := "Path Traversal", evidenceKey := "/../../../etc/passwd" },
       { category := "Path Traversal", evidenceKey := "/../../../etc/passwd" }] ∧
    pyIn "sqlmap" (lowerStr "sqlmap/1.4.2") = true := by
  refine ⟨rfl, rfl, rfl, rfl, rfl⟩

/-- C2: the suspicious-agent check is dead code.  A line whose raw user
agent is `sqlmap/1.4.2` (which contains the suspicious substring `sqlmap`)
is classified into the "Other" bucket, the aggregator retains no raw
user-agent strings, and the scan over the bucket names emits no
suspicious-user-agent finding — contradicting the claim that every ingested
line with a suspicious substring in its user agent yields a finding. -/
theorem C2_agent_check_dead :
    pyIn "sqlmap" (lowerStr "sqlmap/1.4.2") = true ∧
    counterKeys (parseLines
      ["192.168.1.106 - - [25/Dec/2023:10:15:39 +0000] \"GET /wp-admin HTTP/1.1\" 404 321 \"-\" \"sqlmap/1.4.2\""]).user_agents
      = ["Other"] ∧
    ((checkSecurityIssues (parseLines
      ["192.168.1.106 - - [25/Dec/2023:10:15:39 +0000] \"GET /wp-admin HTTP/1.1\" 404 321 \"-\" \"sqlmap/1.4.2\""])).filter
      (fun f => f.category == "Suspicious user agent")) = [] := by
  refine ⟨rfl, rfl, rfl⟩
